import Mathlib

/-!
Verification of the terminal session multiplexer of `pub_term`.

Shallow embedding of the backend core:
* `src/backend/src/modules/terminal/pty-manager.ts` (`PtyManager`)
* `src/backend/src/modules/terminal/terminal.gateway.ts` (socket handlers)
* `src/backend/src/modules/session/session.service.ts` (`getUserRole`)

JS strings are modelled as `List Char`; the pty-manager's session map as an
association list keyed by session id; socket.io room membership as a list of
room names on each socket.  Handlers are pure functions returning the updated
state together with the events emitted to the handling socket and the calls
made on the underlying pty process.
-/

namespace PubTerm

/-- JS string (sequence of UTF-16 units, modelled as characters). -/
abbrev Str := List Char

/-- Prisma enum `SessionRole` (schema: OWNER, OPERATOR, VIEWER). -/
inductive SessionRole where
  | OWNER
  | OPERATOR
  | VIEWER
deriving DecidableEq, Repr

/-- `MAX_BUFFER_SIZE` from `PtyManager`. -/
def MAX_BUFFER_SIZE : Nat := 10000

/-- A row of the prisma `sessionMember` table. -/
structure MemberRecord where
  userId : String
  sessionId : String
  role : SessionRole
deriving DecidableEq, Repr

/-- `SessionService.getUserRole`: looks up the member row for
`(userId, sessionId)` and returns its stored role, `none` when the user is
not a member.  There is no administrator special case on this path. -/
def getUserRole (db : List MemberRecord) (sessionId userId : String) :
    Option SessionRole :=
  (db.find? (fun r => r.userId = userId ∧ r.sessionId = sessionId)).map (·.role)

/-- The `role` column of the prisma `user` table (global role, e.g. "ADMIN"),
consulted by the HTTP session controller but never by the terminal gateway. -/
def userGlobalRole (users : List (String × String)) (uid : String) :
    Option String :=
  (users.find? (fun e => e.1 = uid)).map (·.2)

/-- State of `PtyManager`: its `sessions` map, each live session carrying its
`outputBuffer`.  (The `pty` handle itself is external; the calls made on it
are returned by the operations below.) -/
structure PtyManagerState where
  sessions : List (String × Str)
deriving DecidableEq, Repr

/-- `this.sessions.get(sessionId)` restricted to the output buffer. -/
def lookupSession (m : PtyManagerState) (sid : String) : Option Str :=
  (m.sessions.find? (fun e => e.1 = sid)).map (·.2)

/-- `PtyManager.exists`: `this.sessions.has(sessionId)`. -/
def PtyManagerState.existsSession (m : PtyManagerState) (sid : String) : Bool :=
  (lookupSession m sid).isSome

/-- `PtyManager.getBuffer`: `session?.outputBuffer ?? ''`. -/
def PtyManagerState.getBuffer (m : PtyManagerState) (sid : String) : Str :=
  (lookupSession m sid).getD []

/-- `PtyManager.spawn`: throws `'Session already exists'` when the id is
already tracked; otherwise calls the backend `pty.spawn` (whose possible
failure is the `ptySpawnOk` parameter — the map is only updated after a
successful spawn) and registers a record with an empty output buffer. -/
def PtyManagerState.spawn (m : PtyManagerState) (sid : String)
    (ptySpawnOk : Bool) : Except String PtyManagerState :=
  if m.existsSession sid then .error "Session already exists"
  else if ptySpawnOk then .ok ⟨(sid, []) :: m.sessions⟩
  else .error "pty spawn failed"

/-- `PtyManager.write`: throws `'Session not found'` when no record exists,
otherwise delivers the data to the process; the returned pair is the call
made on the pty handle. -/
def PtyManagerState.write (m : PtyManagerState) (sid : String) (data : Str) :
    Except String (String × Str) :=
  if m.existsSession sid then .ok (sid, data) else .error "Session not found"

/-- `PtyManager.resize`: throws `'Session not found'` when no record exists,
otherwise forwards the geometry to the pty handle. -/
def PtyManagerState.resize (m : PtyManagerState) (sid : String)
    (cols rows : Int) : Except String (String × Int × Int) :=
  if m.existsSession sid then .ok (sid, cols, rows)
  else .error "Session not found"

/-- JS `s.slice(-n)` for `n < s.length`: the last `n` units. -/
def sliceLast (n : Nat) (s : Str) : Str := s.drop (s.length - n)

/-- The buffer update in `PtyManager.spawn`'s `onData` handler:
append, then trim to the last `MAX_BUFFER_SIZE` units when over the cap. -/
def appendTrim (buf data : Str) : Str :=
  let b := buf ++ data
  if b.length > MAX_BUFFER_SIZE then sliceLast MAX_BUFFER_SIZE b else b

/-- The `onData` handler's effect on the manager: the emitting session's
buffer is appended to and trimmed (the `output` event broadcast is modelled
by `processOutput` below). -/
def PtyManagerState.onData (m : PtyManagerState) (sid : String) (data : Str) :
    PtyManagerState :=
  ⟨m.sessions.map (fun e => if e.1 = sid then (e.1, appendTrim e.2 data) else e)⟩

/-- The `onExit` handler's effect on the manager: `this.sessions.delete`. -/
def PtyManagerState.remove (m : PtyManagerState) (sid : String) :
    PtyManagerState :=
  ⟨m.sessions.filter (fun e => ¬(e.1 = sid))⟩

/-- Events emitted to a client socket (`session:output`, `session:joined`,
`session:exit`, `error`). -/
inductive Event where
  | output (data : Str)
  | joined (sessionId : String) (role : SessionRole)
  | exit (exitCode : Int)
  | error (message : String)
deriving DecidableEq, Repr

/-- Per-connection state (`AuthenticatedSocket` plus its socket.io rooms). -/
structure Socket where
  userId : String
  sessionId : Option String := none
  sessionRole : Option SessionRole := none
  rooms : List String := []
deriving DecidableEq, Repr

/-- The room name `session:${sessionId}`. -/
def sessionRoom (sid : String) : String := "session:" ++ sid

/-- `socket.join(room)`: idempotent room membership. -/
def Socket.joinRoom (s : Socket) (r : String) : Socket :=
  if s.rooms.contains r then s else { s with rooms := r :: s.rooms }

/-- `socket.leave(room)`. -/
def Socket.leaveRoom (s : Socket) (r : String) : Socket :=
  { s with rooms := s.rooms.filter (fun x => ¬(x = r)) }

/-- Whether `io.to(sessionRoom sid)` reaches this socket. -/
def deliversTo (s : Socket) (sid : String) : Bool :=
  s.rooms.contains (sessionRoom sid)

/-- Result of a per-socket handler: the socket's state afterwards, the events
emitted to it, and the write calls delivered to the pty handle. -/
structure InputResult where
  socket : Socket
  events : List Event
  writes : List (String × Str)
deriving DecidableEq, Repr

/-- The `session:input` handler: no session → `'Not in a session'` error;
role `VIEWER` → `'Viewers cannot send input'` error, no write; otherwise
`ptyManager.write(socket.sessionId, data)`, whose thrown `'Session not
found'` is caught and reported as `'Failed to send input'`. -/
def onInput (m : PtyManagerState) (sock : Socket) (data : Str) : InputResult :=
  match sock.sessionId with
  | none => ⟨sock, [.error "Not in a session"], []⟩
  | some sid =>
    if sock.sessionRole = some .VIEWER then
      ⟨sock, [.error "Viewers cannot send input"], []⟩
    else
      match m.write sid data with
      | .ok w => ⟨sock, [], [w]⟩
      | .error _ => ⟨sock, [.error "Failed to send input"], []⟩

/-- The `session:resize` handler: silently returns when no session is
recorded; otherwise forwards to `ptyManager.resize`, ignoring any error. -/
def onResize (m : PtyManagerState) (sock : Socket) (cols rows : Int) :
    Socket × List Event × List (String × Int × Int) :=
  match sock.sessionId with
  | none => (sock, [], [])
  | some sid =>
    match m.resize sid cols rows with
    | .ok c => (sock, [], [c])
    | .error _ => (sock, [], [])

/-- Result of the `session:join` handler. -/
structure JoinResult where
  socket : Socket
  mgr : PtyManagerState
  events : List Event
deriving DecidableEq, Repr

/-- The `session:join` handler, in source order: resolve the role via
`sessionService.getUserRole` (`'Access denied'` when `null`); record
`sessionId` and `sessionRole` on the socket and `socket.join` the session
room; emit the replay buffer as one `session:output` catch-up — only when it
is truthy, i.e. nonempty; spawn when no pty exists (a throw from the
underlying spawn is caught as `'Failed to join session'`, the socket state
already mutated); finally emit `session:joined`. -/
def onJoin (db : List MemberRecord) (ptySpawnOk : Bool)
    (m : PtyManagerState) (sock : Socket) (sid : String) : JoinResult :=
  match getUserRole db sid sock.userId with
  | none => ⟨sock, m, [.error "Access denied"]⟩
  | some role =>
    let sock1 : Socket :=
      { sock with sessionId := some sid, sessionRole := some role }
    let sock2 := sock1.joinRoom (sessionRoom sid)
    let buffer := m.getBuffer sid
    let catchup : List Event := if buffer.isEmpty then [] else [.output buffer]
    if m.existsSession sid then
      ⟨sock2, m, catchup ++ [.joined sid role]⟩
    else
      match m.spawn sid ptySpawnOk with
      | .ok m2 => ⟨sock2, m2, catchup ++ [.joined sid role]⟩
      | .error _ => ⟨sock2, m, catchup ++ [.error "Failed to join session"]⟩

/-- The `session:leave` handler: leave the current session's room and clear
`sessionId`/`sessionRole`; no-op when unattached. -/
def onLeave (sock : Socket) : Socket :=
  match sock.sessionId with
  | none => sock
  | some sid =>
    { sock.leaveRoom (sessionRoom sid) with
        sessionId := none, sessionRole := none }

/-- The pty `output` event: the manager appends to the session's buffer and
the gateway broadcasts `session:output` to the session's room.  Returns the
new manager state and, positionally for each socket, the events it receives. -/
def processOutput (m : PtyManagerState) (socks : List Socket) (sid : String)
    (data : Str) : PtyManagerState × List (List Event) :=
  (m.onData sid data,
   socks.map (fun s => if deliversTo s sid then [.output data] else []))

/-- The pty `exit` event: the gateway broadcasts `session:exit {exitCode}` to
the session's room, and the manager deletes the session record. -/
def processExit (m : PtyManagerState) (socks : List Socket) (sid : String)
    (code : Int) : PtyManagerState × List (List Event) :=
  (m.remove sid,
   socks.map (fun s => if deliversTo s sid then [.exit code] else []))

/-- The `session:output` payloads within a list of emitted events. -/
def outputPayloads (evs : List Event) : List Str :=
  evs.filterMap (fun e => match e with | .output d => some d | _ => none)

/-- The output data a socket receives over a run of pty `output` events
`(sessionId, data)`, in order. -/
def receivedOutput (sock : Socket) (outs : List (String × Str)) : List Str :=
  outs.filterMap (fun e => if deliversTo sock e.1 then some e.2 else none)

/-- Concrete membership table for the room-stacking scenario: user "u" is a
member of sessions "A" and "B". -/
def dbC3 : List MemberRecord := [⟨"u", "A", .OWNER⟩, ⟨"u", "B", .OWNER⟩]

/-- Concrete manager state with live sessions "A" (buffer "h") and "B". -/
def mgrC3 : PtyManagerState := ⟨[("A", ['h']), ("B", [])]⟩



theorem appendTrim_length (buf data : Str) :
    (appendTrim buf data).length = min (buf.length + data.length) MAX_BUFFER_SIZE := by
  simp only [appendTrim, sliceLast]
  split_ifs with h
  · simp only [List.length_drop, List.length_append] at *
    omega
  · simp only [List.length_append] at *
    omega

theorem appendTrim_suffix (buf data : Str) :
    appendTrim buf data <:+ buf ++ data := by
  simp only [appendTrim, sliceLast]
  split_ifs with h
  · exact List.drop_suffix _ _
  · exact List.suffix_refl _

theorem lookup_onData (m : PtyManagerState) (sid : String) (data : Str) :
    lookupSession (m.onData sid data) sid
      = (lookupSession m sid).map (fun b => appendTrim b data) := by
  obtain ⟨l⟩ := m
  unfold lookupSession PtyManagerState.onData
  simp only
  induction l with
  | nil => simp
  | cons e rest ih =>
    simp only [List.map_cons]
    by_cases h : e.1 = sid
    · rw [List.find?_cons_of_pos, List.find?_cons_of_pos] <;> simp [h]
    · rw [List.find?_cons_of_neg, List.find?_cons_of_neg]
      · exact ih
      · simp [h]
      · simp [h]

theorem lookup_remove (m : PtyManagerState) (sid : String) :
    lookupSession (m.remove sid) sid = none := by
  obtain ⟨l⟩ := m
  unfold lookupSession PtyManagerState.remove
  simp only
  induction l with
  | nil => simp
  | cons e rest ih =>
    by_cases h : e.1 = sid
    · simp [List.filter_cons, h]
    · simp [List.filter_cons, h, List.find?_cons_of_neg]

theorem existsSession_remove (m : PtyManagerState) (sid : String) :
    (m.remove sid).existsSession sid = false := by
  simp [PtyManagerState.existsSession, lookup_remove]

theorem getBuffer_remove (m : PtyManagerState) (sid : String) :
    (m.remove sid).getBuffer sid = [] := by
  simp [PtyManagerState.getBuffer, lookup_remove]

theorem zip_map_snd {α β : Type} (l : List α) (f : α → β) :
    ∀ p ∈ l.zip (l.map f), p.2 = f p.1 := by
  induction l with
  | nil => intro p hp; simp at hp
  | cons a rest ih =>
    intro p hp
    simp only [List.map_cons, List.zip_cons_cons, List.mem_cons] at hp
    rcases hp with h | h
    · subst h; rfl
    · exact ih p h

/-- C1: a connection whose stored role is `VIEWER` (effective OBSERVE) has
every input event rejected with the permission-denied error and no pty write
is made; a connection with any other stored role (effective DRIVE) has the
exact payload forwarded as the single write call for its current session. -/
theorem observe_rejected_drive_forwarded (m : PtyManagerState) (sock : Socket)
    (sid : String) (data : Str) (h : sock.sessionId = some sid) :
    (sock.sessionRole = some .VIEWER →
      onInput m sock data = ⟨sock, [.error "Viewers cannot send input"], []⟩) ∧
    (∀ r, sock.sessionRole = some r → r ≠ .VIEWER →
      m.existsSession sid = true →
      onInput m sock data = ⟨sock, [], [(sid, data)]⟩) := by
  constructor
  · intro hv
    simp [onInput, h, hv]
  · intro r hr hne hex
    simp [onInput, h, hr, hne, PtyManagerState.write, hex]

theorem observe_rejected_drive_forwarded_witness :
    ((⟨"u", some "S", some .VIEWER, ["session:S"]⟩ : Socket).sessionId = some "S" ∧
      onInput ⟨[("S", [])]⟩ ⟨"u", some "S", some .VIEWER, ["session:S"]⟩ ['x']
        = ⟨⟨"u", some "S", some .VIEWER, ["session:S"]⟩,
           [.error "Viewers cannot send input"], []⟩) ∧
    onInput ⟨[("S", [])]⟩ ⟨"v", some "S", some .OWNER, ["session:S"]⟩ ['x']
        = ⟨⟨"v", some "S", some .OWNER, ["session:S"]⟩, [], [("S", ['x'])]⟩ := by
  refine ⟨⟨rfl, ?_⟩, ?_⟩
  · exact (observe_rejected_drive_forwarded _ _ "S" _ rfl).1 rfl
  · exact (observe_rejected_drive_forwarded _ _ "S" _ rfl).2 .OWNER rfl
      (by decide) (by decide)

/-- C2: each buffer append keeps the replay buffer a suffix of the appended
stream of length `min (old + new) MAX_BUFFER_SIZE` — so it never exceeds
10000 units and, when the cap is hit, exactly the most recent 10000 units
are retained; accordingly the manager's stored buffer is at most 10000 units
long immediately after every `onData`. -/
theorem replay_buffer_capped (buf data : Str) (m : PtyManagerState)
    (sid : String) :
    (appendTrim buf data).length
        = min (buf.length + data.length) MAX_BUFFER_SIZE ∧
    appendTrim buf data <:+ buf ++ data ∧
    ((m.onData sid data).getBuffer sid).length ≤ MAX_BUFFER_SIZE := by
  refine ⟨appendTrim_length buf data, appendTrim_suffix buf data, ?_⟩
  unfold PtyManagerState.getBuffer
  rw [lookup_onData]
  cases hb : lookupSession m sid with
  | none => simp [MAX_BUFFER_SIZE]
  | some b =>
    simp only [Option.map_some', Option.getD_some, appendTrim_length]
    exact min_le_right _ _

/-- C3: after a user attached to session A joins session B, the connection's
current session is B, yet it is still in A's broadcast room and A's next
output event is delivered to it — the leave transition for A was not
performed, contradicting the at-most-one-attachment claim. -/
theorem join_keeps_old_room_bug :
    (let j1 := onJoin dbC3 true mgrC3 { userId := "u" } "A"
     let j2 := onJoin dbC3 true j1.mgr j1.socket "B"
     j2.socket.sessionId = some "B" ∧
     deliversTo j2.socket "A" = true ∧
     (processOutput j2.mgr [j2.socket] "A" ['x']).2 = [[.output ['x']]]) := by
  decide

/-- C7: spawning an already-tracked session id fails with the
`AlreadyExists` error and returns no new state — no second process is
created and the existing record is not replaced. -/
theorem spawn_already_exists (m : PtyManagerState) (sid : String) (ok : Bool)
    (h : m.existsSession sid = true) :
    m.spawn sid ok = .error "Session already exists" ∧
    ∀ m2, m.spawn sid ok ≠ .ok m2 := by
  constructor
  · simp [PtyManagerState.spawn, h]
  · intro m2
    simp [PtyManagerState.spawn, h]

theorem spawn_already_exists_witness :
    (⟨[("S", [])]⟩ : PtyManagerState).existsSession "S" = true ∧
    (⟨[("S", [])]⟩ : PtyManagerState).spawn "S" true
      = .error "Session already exists" := by
  refine ⟨by decide, ?_⟩
  exact (spawn_already_exists _ "S" true (by decide)).1

/-- C8: input from an unattached connection yields the not-in-session error
and no write; and when an attached non-viewer's write fails downstream
(the session vanished from the manager), the failure is reported to the
sender as an error event while the connection's attachment is unchanged. -/
theorem input_unattached_and_write_failure (m : PtyManagerState)
    (sock : Socket) (data : Str) :
    (sock.sessionId = none →
      onInput m sock data = ⟨sock, [.error "Not in a session"], []⟩) ∧
    (∀ sid r, sock.sessionId = some sid → sock.sessionRole = some r →
      r ≠ .VIEWER → m.existsSession sid = false →
      onInput m sock data = ⟨sock, [.error "Failed to send input"], []⟩ ∧
      (onInput m sock data).socket = sock) := by
  constructor
  · intro h
    simp [onInput, h]
  · intro sid r hs hr hne hex
    constructor
    · simp [onInput, hs, hr, hne, PtyManagerState.write, hex]
    · simp [onInput, hs, hr, hne, PtyManagerState.write, hex]

theorem input_unattached_and_write_failure_witness :
    ((⟨"u", none, none, []⟩ : Socket).sessionId = none ∧
      onInput ⟨[]⟩ ⟨"u", none, none, []⟩ ['x']
        = ⟨⟨"u", none, none, []⟩, [.error "Not in a session"], []⟩) ∧
    onInput ⟨[]⟩ ⟨"v", some "S", some .OWNER, ["session:S"]⟩ ['x']
      = ⟨⟨"v", some "S", some .OWNER, ["session:S"]⟩,
         [.error "Failed to send input"], []⟩ := by
  refine ⟨⟨rfl, ?_⟩, ?_⟩
  · exact (input_unattached_and_write_failure _ _ _).1 rfl
  · exact ((input_unattached_and_write_failure _ _ _).2 "S" .OWNER rfl rfl
      (by decide) (by decide)).1

/-- C10: a resize event from an unattached connection is silently ignored —
no error event, no manager call, socket unchanged — whereas an input event
from the same state does emit the not-in-session error. -/
theorem resize_unattached_silent (m : PtyManagerState) (sock : Socket)
    (cols rows : Int) (h : sock.sessionId = none) :
    onResize m sock cols rows = (sock, [], []) ∧
    ∀ data, (onInput m sock data).events = [.error "Not in a session"] := by
  constructor
  · simp [onResize, h]
  · intro data
    simp [onInput, h]

theorem resize_unattached_silent_witness :
    (⟨"u", none, none, []⟩ : Socket).sessionId = none ∧
    onResize ⟨[("S", [])]⟩ ⟨"u", none, none, []⟩ 80 24
      = (⟨"u", none, none, []⟩, [], []) := by
  exact ⟨rfl, (resize_unattached_silent _ _ 80 24 rfl).1⟩


/-- C4 counterexample: a user holding the global ADMIN role who is not a
member of session "S" is rejected with `Access denied` by the gateway join —
the code never treats an administrator as OBSERVE on this path. -/
theorem admin_nonmember_denied_counterexample :
    getUserRole [] "S" "root" = none ∧
    userGlobalRole [("root", "ADMIN")] "root" = some "ADMIN" ∧
    (onJoin [] true ⟨[("S", [])]⟩ { userId := "root" } "S").events
        = [.error "Access denied"] ∧
    (onJoin [] true ⟨[("S", [])]⟩ { userId := "root" } "S").socket.sessionId
        = none := by
  decide

/-- C4 (amended): stored roles OWNER and OPERATOR are effective DRIVE
(input forwarded), VIEWER is effective OBSERVE (input rejected), and a user
with no membership row gets NoAccess unconditionally — the gateway consults
only the membership table, so even a global ADMIN non-member is denied
(no OBSERVE exception exists in this path). -/
theorem role_mapping_no_admin_exception
    (db : List MemberRecord) (users : List (String × String))
    (m : PtyManagerState) (sock : Socket) (sid uid : String) (data : Str) :
    (sock.sessionId = some sid → m.existsSession sid = true →
      (sock.sessionRole = some .OWNER ∨ sock.sessionRole = some .OPERATOR) →
      (onInput m sock data).writes = [(sid, data)]) ∧
    (sock.sessionId = some sid → sock.sessionRole = some .VIEWER →
      onInput m sock data = ⟨sock, [.error "Viewers cannot send input"], []⟩) ∧
    (getUserRole db sid uid = none → userGlobalRole users uid = some "ADMIN" →
      onJoin db true m { userId := uid } sid
        = ⟨{ userId := uid }, m, [.error "Access denied"]⟩) := by
  refine ⟨?_, ?_, ?_⟩
  · intro hs hex hr
    rcases hr with hr | hr <;> simp [onInput, hs, hr, PtyManagerState.write, hex]
  · intro hs hr
    simp [onInput, hs, hr]
  · intro hnone _
    simp [onJoin, hnone]

theorem role_mapping_no_admin_exception_witness :
    ((⟨"a", some "S", some .OPERATOR, ["session:S"]⟩ : Socket).sessionId
        = some "S" ∧
      (onInput ⟨[("S", [])]⟩ ⟨"a", some "S", some .OPERATOR, ["session:S"]⟩
          ['l','s']).writes = [("S", ['l','s'])]) ∧
    (getUserRole [] "S" "root" = none ∧
      onJoin [] true ⟨[("S", [])]⟩ { userId := "root" } "S"
        = ⟨{ userId := "root" }, ⟨[("S", [])]⟩, [.error "Access denied"]⟩) := by
  refine ⟨⟨rfl, ?_⟩, ⟨by decide, ?_⟩⟩
  · exact (role_mapping_no_admin_exception [] [] _ _ "S" "x" _).1 rfl (by decide)
      (Or.inr rfl)
  · exact (role_mapping_no_admin_exception [] [("root", "ADMIN")] _
      { userId := "root" } "S" "root" []).2.2 (by decide) (by decide)

/-- C5 counterexample: a member joining a live session whose replay buffer
is empty receives no catch-up output event at all — the join succeeds
(`joined` is emitted) but the claimed "empty catch-up" event is absent. -/
theorem empty_catchup_not_emitted_counterexample :
    (onJoin [⟨"u", "S", .VIEWER⟩] true ⟨[("S", [])]⟩ { userId := "u" }
        "S").events = [.joined "S" .VIEWER] ∧
    outputPayloads
      (onJoin [⟨"u", "S", .VIEWER⟩] true ⟨[("S", [])]⟩ { userId := "u" }
        "S").events = [] := by
  decide

/-- C5 (amended): a fresh connection joining a live session receives the
full replay buffer as exactly one catch-up output event when the buffer is
nonempty, and no catch-up event when it is empty; the join confirmation is
last; afterwards the connection receives exactly the session's output events
produced after the join, in order — no duplication, no gap. -/
theorem catchup_single_then_live (db : List MemberRecord)
    (m : PtyManagerState) (uid sid : String) (role : SessionRole)
    (hrole : getUserRole db sid uid = some role)
    (hex : m.existsSession sid = true) :
    (outputPayloads (onJoin db true m { userId := uid } sid).events
        = if (m.getBuffer sid).isEmpty then [] else [m.getBuffer sid]) ∧
    (onJoin db true m { userId := uid } sid).events.getLast?
        = some (.joined sid role) ∧
    (onJoin db true m { userId := uid } sid).socket.rooms
        = [sessionRoom sid] ∧
    (∀ post : List Str,
      receivedOutput (onJoin db true m { userId := uid } sid).socket
          (post.map (fun d => (sid, d))) = post) := by
  refine ⟨?_, ?_, ?_, ?_⟩
  · by_cases hb : (m.getBuffer sid).isEmpty
    · simp [onJoin, hrole, hex, hb, outputPayloads]
    · simp [onJoin, hrole, hex, hb, outputPayloads]
  · simp [onJoin, hrole, hex, List.getLast?_concat]
  · simp [onJoin, hrole, hex, Socket.joinRoom]
  · intro post
    simp only [onJoin, hrole, hex]
    simp [receivedOutput, Socket.joinRoom, deliversTo, List.filterMap_map,
      Function.comp_def]



theorem catchup_single_then_live_witness :
    getUserRole [⟨"u", "S", .VIEWER⟩] "S" "u" = some SessionRole.VIEWER ∧
    PtyManagerState.existsSession ⟨[("S", ['h', 'i'])]⟩ "S" = true ∧
    outputPayloads (onJoin [⟨"u", "S", .VIEWER⟩] true ⟨[("S", ['h', 'i'])]⟩
        { userId := "u" } "S").events = [['h', 'i']] ∧
    receivedOutput (onJoin [⟨"u", "S", .VIEWER⟩] true ⟨[("S", ['h', 'i'])]⟩
        { userId := "u" } "S").socket
        ([['o'], ['k']].map (fun d => ("S", d))) = [['o'], ['k']] := by
  have h := catchup_single_then_live [⟨"u", "S", .VIEWER⟩]
    ⟨[("S", ['h', 'i'])]⟩ "u" "S" .VIEWER (by decide) (by decide)
  refine ⟨by decide, by decide, h.1.trans (by decide), h.2.2.2 [['o'], ['k']]⟩

theorem getBuffer_of_not_exists (m : PtyManagerState) (sid : String)
    (h : m.existsSession sid = false) : m.getBuffer sid = [] := by
  unfold PtyManagerState.getBuffer
  unfold PtyManagerState.existsSession at h
  cases hl : lookupSession m sid with
  | none => rfl
  | some b => rw [hl] at h; simp at h

theorem joinRoom_sessionId (s : Socket) (r : String) :
    (s.joinRoom r).sessionId = s.sessionId := by
  unfold Socket.joinRoom; split_ifs <;> rfl

theorem joinRoom_sessionRole (s : Socket) (r : String) :
    (s.joinRoom r).sessionRole = s.sessionRole := by
  unfold Socket.joinRoom; split_ifs <;> rfl

theorem joinRoom_mem (s : Socket) (r : String) : r ∈ (s.joinRoom r).rooms := by
  unfold Socket.joinRoom
  split_ifs with h
  · simpa using h
  · exact List.mem_cons_self _ _

/-- C6: when the pty emits `exit(code)` for a session, each socket in the
session's room receives exactly the one exit event carrying that code
(others receive nothing), the session record is removed from the manager,
and a subsequent authorized join to the same id finds no record, spawns a
fresh one with an empty buffer, and confirms the join with no catch-up. -/
theorem exit_broadcast_remove_respawn (m : PtyManagerState)
    (socks : List Socket) (sid : String) (code : Int) :
    (∀ p ∈ socks.zip (processExit m socks sid code).2,
        p.2 = if deliversTo p.1 sid then [Event.exit code] else []) ∧
    (processExit m socks sid code).1.existsSession sid = false ∧
    (∀ (db : List MemberRecord) (uid : String) (role : SessionRole),
      getUserRole db sid uid = some role →
      ((onJoin db true (processExit m socks sid code).1 { userId := uid }
          sid).mgr.existsSession sid = true ∧
       (onJoin db true (processExit m socks sid code).1 { userId := uid }
          sid).mgr.getBuffer sid = [] ∧
       (onJoin db true (processExit m socks sid code).1 { userId := uid }
          sid).events = [.joined sid role])) := by
  refine ⟨?_, existsSession_remove m sid, ?_⟩
  · intro p hp
    exact zip_map_snd socks _ p hp
  · intro db uid role hrole
    have hm : (processExit m socks sid code).1 = m.remove sid := rfl
    have hex := existsSession_remove m sid
    have hbuf := getBuffer_remove m sid
    have hjoin : onJoin db true (m.remove sid) { userId := uid } sid
        = ⟨(Socket.mk uid (some sid) (some role) []).joinRoom (sessionRoom sid),
            ⟨(sid, []) :: (m.remove sid).sessions⟩, [.joined sid role]⟩ := by
      simp [onJoin, hrole, hex, hbuf, PtyManagerState.spawn]
    rw [hm, hjoin]
    refine ⟨?_, ?_, rfl⟩ <;>
      simp [PtyManagerState.existsSession, PtyManagerState.getBuffer,
        lookupSession]

theorem exit_broadcast_remove_respawn_witness :
    (processExit ⟨[("S", ['h'])]⟩
        [⟨"u", some "S", some .OWNER, ["session:S"]⟩] "S" 1).2
      = [[Event.exit 1]] ∧
    (processExit ⟨[("S", ['h'])]⟩
        [⟨"u", some "S", some .OWNER, ["session:S"]⟩] "S" 1).1.existsSession
        "S" = false ∧
    getUserRole [⟨"u", "S", .OWNER⟩] "S" "u" = some SessionRole.OWNER ∧
    (onJoin [⟨"u", "S", .OWNER⟩] true
        (processExit ⟨[("S", ['h'])]⟩
          [⟨"u", some "S", some .OWNER, ["session:S"]⟩] "S" 1).1
        { userId := "u" } "S").mgr.existsSession "S" = true := by
  refine ⟨by decide, ?_, by decide, ?_⟩
  · exact (exit_broadcast_remove_respawn ⟨[("S", ['h'])]⟩ _ "S" 1).2.1
  · exact ((exit_broadcast_remove_respawn ⟨[("S", ['h'])]⟩
      [⟨"u", some "S", some .OWNER, ["session:S"]⟩] "S" 1).2.2
      [⟨"u", "S", .OWNER⟩] "u" .OWNER (by decide)).1

/-- C9: when access is granted but the underlying pty spawn throws during a
join, the socket has already recorded the session id and role and joined the
broadcast room; the handler emits the join-failure error and leaves the
manager unchanged, and subsequent input from this connection is gated by the
recorded role (viewer-rejected or write-attempted), never rejected as
not-in-session. -/
theorem failed_spawn_leaves_connection_attached (db : List MemberRecord)
    (m : PtyManagerState) (sock : Socket) (sid : String) (role : SessionRole)
    (hrole : getUserRole db sid sock.userId = some role)
    (hex : m.existsSession sid = false) :
    (onJoin db false m sock sid).socket.sessionId = some sid ∧
    (onJoin db false m sock sid).socket.sessionRole = some role ∧
    sessionRoom sid ∈ (onJoin db false m sock sid).socket.rooms ∧
    (onJoin db false m sock sid).events = [.error "Failed to join session"] ∧
    (onJoin db false m sock sid).mgr = m ∧
    (∀ data, role = .VIEWER →
      onInput m (onJoin db false m sock sid).socket data
        = ⟨(onJoin db false m sock sid).socket,
           [.error "Viewers cannot send input"], []⟩) ∧
    (∀ data, role ≠ .VIEWER →
      onInput m (onJoin db false m sock sid).socket data
        = ⟨(onJoin db false m sock sid).socket,
           [.error "Failed to send input"], []⟩) := by
  have hbuf := getBuffer_of_not_exists m sid hex
  have hjoin : onJoin db false m sock sid
      = ⟨Socket.joinRoom
            { sock with sessionId := some sid, sessionRole := some role }
            (sessionRoom sid),
          m, [.error "Failed to join session"]⟩ := by
    simp [onJoin, hrole, hex, hbuf, PtyManagerState.spawn]
  rw [hjoin]
  refine ⟨joinRoom_sessionId _ _, joinRoom_sessionRole _ _, joinRoom_mem _ _,
    rfl, rfl, ?_, ?_⟩
  · intro data hv
    simp [onInput, joinRoom_sessionId, joinRoom_sessionRole, hv]
  · intro data hv
    simp [onInput, joinRoom_sessionId, joinRoom_sessionRole, hv,
      PtyManagerState.write, hex]

theorem failed_spawn_leaves_connection_attached_witness :
    getUserRole [⟨"u", "S", .VIEWER⟩] "S"
        (⟨"u", none, none, []⟩ : Socket).userId = some SessionRole.VIEWER ∧
    PtyManagerState.existsSession ⟨[]⟩ "S" = false ∧
    (onJoin [⟨"u", "S", .VIEWER⟩] false ⟨[]⟩ ⟨"u", none, none, []⟩
        "S").socket.sessionId = some "S" ∧
    (onJoin [⟨"u", "S", .VIEWER⟩] false ⟨[]⟩ ⟨"u", none, none, []⟩
        "S").events = [.error "Failed to join session"] ∧
    onInput ⟨[]⟩ (onJoin [⟨"u", "S", .VIEWER⟩] false ⟨[]⟩
        ⟨"u", none, none, []⟩ "S").socket ['x']
      = ⟨(onJoin [⟨"u", "S", .VIEWER⟩] false ⟨[]⟩ ⟨"u", none, none, []⟩
          "S").socket, [.error "Viewers cannot send input"], []⟩ := by
  have h := failed_spawn_leaves_connection_attached [⟨"u", "S", .VIEWER⟩]
    ⟨[]⟩ ⟨"u", none, none, []⟩ "S" .VIEWER (by decide) (by decide)
  exact ⟨by decide, by decide, h.1, h.2.2.2.1, h.2.2.2.2.2.1 ['x'] rfl⟩

end PubTerm
